import Mathlib

/-!
Shallow embedding of the backpressure / flow-control module of the
rulecatch-sdk repository (packages/ai-pooler src, exported through
packages/mcp-server/src/types.ts in this snapshot): the backoff
calculator, the admission gate, the outcome recorder, the capacity
negotiator and the drain loop, together with proofs of the specified
properties.

Modelling conventions, chosen to match the JavaScript source:
- A JavaScript number that may be NaN is modelled as Option Int, with
  none standing for NaN.  Every ordered comparison against NaN is false
  in JavaScript, and arithmetic propagates NaN; the js* helpers below
  implement exactly that.
- backoffLevel, consecutiveFailures and pendingEventCount are kept as
  nonnegative integers by every operation of the source (max(0, _),
  min(_+1, 10), counts of events), so they are modelled as Nat; the
  truncated Nat subtraction coincides with the Math.max(0, a - b) of
  the source.
- Date.now() is passed in as an explicit now parameter; a single run of
  a function uses one value of now.
- Network effects (fetch, caller supplied sendBatch) are modelled by
  explicit outcome values: getServerCapacity takes the outcome of its
  one request, and the drain loop takes oracles giving the result of
  the k-th capacity negotiation and of the k-th sendBatch call.
- The drain loop of flushWithBackpressure is a while loop with no
  structural termination measure, so it is embedded with explicit fuel;
  a none result means the loop was still running after fuel iterations.
- The loop result carries, besides fields returned by the source
  (success, sent, remaining, state), the internal remainingEvents list
  and the number of capacity and sendBatch calls made, so that the
  no-network-call and ordering properties are statable.
-/

namespace Rulecatch

/-- Ordered greater-than against a JavaScript number that may be NaN
(none): every comparison with NaN is false. -/
def jsGt (a : Option Int) (b : Int) : Bool :=
  match a with
  | none => false
  | some v => b < v

/-- Ordered less-or-equal against a JavaScript number that may be NaN
(none): every comparison with NaN is false. -/
def jsLe (a : Option Int) (b : Int) : Bool :=
  match a with
  | none => false
  | some v => v ≤ b

/-- Subtraction on a JavaScript number that may be NaN: NaN propagates. -/
def jsSub (a : Option Int) (b : Int) : Option Int :=
  a.map (fun v => v - b)

/-- Whitespace skipped by JavaScript parseInt before the digits. -/
def isJsSpace (c : Char) : Bool :=
  c = ' ' || c = '\t' || c = '\n' || c = '\r'

/-- Value of a decimal digit character. -/
def digitVal (c : Char) : Nat := c.toNat - 48

/-- Longest leading run of decimal digits, as a number; none when there
is no leading digit (which makes parseInt return NaN). -/
def leadingDigits (cs : List Char) : Option Nat :=
  let ds := cs.takeWhile Char.isDigit
  if ds.isEmpty then none
  else some (ds.foldl (fun a c => a * 10 + digitVal c) 0)

/-- JavaScript parseInt(s, 10): skip leading whitespace, optional sign,
then the longest run of decimal digits; none models NaN. -/
def jsParseInt (s : String) : Option Int :=
  let cs := s.toList.dropWhile isJsSpace
  match cs with
  | '-' :: rest => (leadingDigits rest).map (fun n => -(n : Int))
  | '+' :: rest => (leadingDigits rest).map (fun n => (n : Int))
  | rest => (leadingDigits rest).map (fun n => (n : Int))

/-- JavaScript truthiness of an optional string: undefined and the empty
string are falsy. -/
def jsTruthy : Option String → Bool
  | none => false
  | some s => s != ""

/-- The JavaScript idiom h || d for an optional string h: d when h is
undefined or empty. -/
def headerOrDefault (h : Option String) (d : String) : String :=
  match h with
  | none => d
  | some s => if s = "" then d else s

/-- CapacityResponse of the source: the terms the server advertises.
retryAfter is a JavaScript number that may be NaN (none), since the
source computes it with parseInt on a header. -/
structure CapacityResponse where
  ready : Bool
  maxBatchSize : Nat
  delayBetweenBatches : Int
  retryAfter : Option Int
  loadPercent : Option Int := none
  message : Option String := none
deriving DecidableEq

/-- BackpressureState of the source.  nextAttemptAfter is a JavaScript
number that may be NaN (none), since a failure with an unparseable
Retry-After header stores now + NaN. -/
structure BackpressureState where
  backoffLevel : Nat
  nextAttemptAfter : Option Int
  lastCapacity : Option CapacityResponse
  consecutiveFailures : Nat
  lastSuccessTime : Int
  pendingEventCount : Nat
deriving DecidableEq

/-- The fresh state produced by loadState when no file exists or the
file is corrupt. -/
def defaultState : BackpressureState :=
  { backoffLevel := 0
    nextAttemptAfter := some 0
    lastCapacity := none
    consecutiveFailures := 0
    lastSuccessTime := 0
    pendingEventCount := 0 }

/-- The conservative DEFAULT_CAPACITY of the source, used when the
server is unreachable or answers with an unexpected status. -/
def DEFAULT_CAPACITY : CapacityResponse :=
  { ready := false
    maxBatchSize := 10
    delayBetweenBatches := 5000
    retryAfter := some 30 }

/-- BACKOFF_CONFIG constants of the source. -/
structure BackoffConfig where
  baseDelay : Nat
  maxDelay : Nat
  multiplier : Nat
  maxFailures : Nat
  resetWindow : Nat

/-- The concrete BACKOFF_CONFIG of the source. -/
def BACKOFF_CONFIG : BackoffConfig :=
  { baseDelay := 1000
    maxDelay := 300000
    multiplier := 2
    maxFailures := 10
    resetWindow := 60000 }

/-- calculateBackoffDelay of the source:
min(baseDelay * multiplier ^ level, maxDelay).  The source computes the
power with Math.pow on doubles; for every natural level the double
computation and the exact computation agree after the min with the cap
(exact below the cap, at or above the cap from level 9 on), so the Nat
version is an exact embedding on natural levels. -/
def calculateBackoffDelay (backoffLevel : Nat) : Nat :=
  min (BACKOFF_CONFIG.baseDelay * BACKOFF_CONFIG.multiplier ^ backoffLevel)
    BACKOFF_CONFIG.maxDelay

/-- Result record of canAttemptFlush. -/
structure GateResult where
  allowed : Bool
  waitMs : Option Int
  reason : String
deriving DecidableEq

/-- Math.ceil(w / 1000) of the source, used only on a positive integer
wait (both call sites are guarded by waitMs > 0). -/
def ceilSecs (w : Int) : Int := (w + 999) / 1000

/-- The circuit-breaker denial message of the source. -/
def circuitBreakerReason (failures : Nat) (waitMs : Int) : String :=
  "Circuit breaker open: " ++ toString failures ++
    " consecutive failures. Retry in " ++ toString (ceilSecs waitMs) ++ "s"

/-- The backoff denial message of the source. -/
def backoffReason (waitMs : Int) (level : Nat) : String :=
  "Backing off: retry in " ++ toString (ceilSecs waitMs) ++ "s (level " ++
    toString level ++ ")"

/-- canAttemptFlush of the source: circuit breaker first (10 or more
consecutive failures and a wait still pending), then the backoff timer,
else allow. -/
def canAttemptFlush (now : Int) (state : BackpressureState) : GateResult :=
  let waitMs := jsSub state.nextAttemptAfter now
  if BACKOFF_CONFIG.maxFailures ≤ state.consecutiveFailures ∧ jsGt waitMs 0 then
    { allowed := false
      waitMs := waitMs
      reason := circuitBreakerReason state.consecutiveFailures (waitMs.getD 0) }
  else if jsGt state.nextAttemptAfter now then
    { allowed := false
      waitMs := waitMs
      reason := backoffReason (waitMs.getD 0) state.backoffLevel }
  else
    { allowed := true, waitMs := some 0, reason := "OK" }

/-- recordSuccess of the source.  Math.max(0, a - b) on the nonnegative
fields is the truncated Nat subtraction. -/
def recordSuccess (now : Int) (state : BackpressureState) (eventsSent : Nat) :
    BackpressureState :=
  { state with
    backoffLevel := state.backoffLevel - 1
    consecutiveFailures := 0
    lastSuccessTime := now
    nextAttemptAfter := some 0
    pendingEventCount := state.pendingEventCount - eventsSent }

/-- recordFailure of the source.  A truthy retryAfterHeader wins over
the status code; 429 and 503 double the exponential delay; NaN from an
unparseable header propagates into nextAttemptAfter. -/
def recordFailure (now : Int) (state : BackpressureState) (statusCode : Int)
    (retryAfterHeader : Option String) : BackpressureState :=
  let newFailureCount := state.consecutiveFailures + 1
  let newBackoffLevel := min (state.backoffLevel + 1) 10
  let nextAttemptDelay : Option Int :=
    if jsTruthy retryAfterHeader then
      (jsParseInt (retryAfterHeader.getD (""))).map (fun v => v * 1000)
    else if statusCode = 429 ∨ statusCode = 503 then
      some ((calculateBackoffDelay newBackoffLevel : Int) * 2)
    else
      some ((calculateBackoffDelay newBackoffLevel : Int))
  { state with
    backoffLevel := newBackoffLevel
    consecutiveFailures := newFailureCount
    nextAttemptAfter := nextAttemptDelay.map (fun d => now + d) }

/-- updatePendingCount of the source. -/
def updatePendingCount (state : BackpressureState) (count : Nat) :
    BackpressureState :=
  { state with pendingEventCount := count }

/-- Outcome of the single request issued by getServerCapacity: either
the fetch (or the body read) threw - network failure, timeout - or a
response arrived with a status, an optional Retry-After header and,
when the body was read, its parse result (none when response.json threw
on a malformed body). -/
inductive FetchOutcome where
  | fetchFailed : FetchOutcome
  | response (status : Int) (retryAfterHeader : Option String)
      (body : Option CapacityResponse) : FetchOutcome
deriving DecidableEq

/-- getServerCapacity of the source, as a function of the outcome of
its request.  429 and 503 build a not-ready descriptor whose retryAfter
comes from parseInt(header || default); any other non-2xx status, a
thrown fetch and a malformed body all degrade to DEFAULT_CAPACITY; a
2xx response returns its body verbatim. -/
def getServerCapacity : FetchOutcome → CapacityResponse
  | .fetchFailed => DEFAULT_CAPACITY
  | .response status h body =>
    if status = 429 then
      { ready := false
        maxBatchSize := 0
        delayBetweenBatches := 0
        retryAfter := jsParseInt (headerOrDefault h ("60"))
        message := some ("Rate limited") }
    else if status = 503 then
      { ready := false
        maxBatchSize := 0
        delayBetweenBatches := 0
        retryAfter := jsParseInt (headerOrDefault h ("120"))
        message := some ("Server overloaded") }
    else if ¬ (200 ≤ status ∧ status ≤ 299) then
      DEFAULT_CAPACITY
    else
      match body with
      | some d => d
      | none => DEFAULT_CAPACITY

/-- Result of one caller-supplied sendBatch call. -/
structure SendResult where
  ok : Bool
  status : Int
  retryAfter : Option String := none
deriving DecidableEq

/-- State of the drain loop when it stops: the internal remainingEvents
list, the backpressure state, totalSent, and how many capacity and
sendBatch calls have been made so far (capIdx counts the initial
negotiation made before the loop). -/
structure LoopResult (α : Type) where
  remList : List α
  state : BackpressureState
  totalSent : Nat
  capIdx : Nat
  sendIdx : Nat
deriving DecidableEq

/-- The while loop of flushWithBackpressure, with explicit fuel.  caps k
is the result of the k-th getServerCapacity call of the whole flush
(the initial negotiation is call 0, so the loop starts at capIdx = 1);
sends k is the result of the k-th sendBatch call.  none means the loop
was still running when the fuel ran out. -/
def flushLoop {α : Type} (caps : Nat → CapacityResponse) (sends : Nat → SendResult)
    (capacity : CapacityResponse) (now : Int) :
    Nat → List α → BackpressureState → Nat → Nat → Nat → Option (LoopResult α)
  | 0, rem, st, sent, ci, si =>
    if rem.isEmpty then some ⟨rem, st, sent, ci, si⟩ else none
  | fuel + 1, rem, st, sent, ci, si =>
    if rem.isEmpty then some ⟨rem, st, sent, ci, si⟩
    else
      let batchSize := min capacity.maxBatchSize rem.length
      let batch := rem.take batchSize
      let r := sends si
      if r.ok then
        let rem2 := rem.drop batchSize
        let sent2 := sent + batch.length
        let st2 := recordSuccess now st batch.length
        if ¬ rem2.isEmpty ∧ 0 < capacity.delayBetweenBatches then
          if sent2 % 100 = 0 then
            let newCap := caps ci
            let st3 := { st2 with lastCapacity := some newCap }
            if newCap.ready then
              flushLoop caps sends capacity now fuel rem2 st3 sent2 (ci + 1) (si + 1)
            else
              some ⟨rem2, st3, sent2, ci + 1, si + 1⟩
          else
            flushLoop caps sends capacity now fuel rem2 st2 sent2 ci (si + 1)
        else
          flushLoop caps sends capacity now fuel rem2 st2 sent2 ci (si + 1)
      else
        some ⟨rem, recordFailure now st r.status r.retryAfter, sent, ci, si + 1⟩

/-- Result of flushWithBackpressure, extended with the internal
remainingEvents list and the number of capacity and sendBatch calls
made, so that the no-network-call and ordering properties can be
stated. -/
structure FlushResult (α : Type) where
  success : Bool
  sent : Nat
  remaining : Nat
  state : BackpressureState
  remList : List α
  capCalls : Nat
  sendCalls : Nat
deriving DecidableEq

/-- flushWithBackpressure of the source: update the pending count, run
the admission gate (deny returns at once with nothing sent), negotiate
capacity (a not-ready descriptor sets the next attempt time and returns
with nothing sent), else drain batches through flushLoop.  Persistence
is modelled by the state field of the result: it is exactly the state
the source passes to saveState before returning. -/
def flushWithBackpressure {α : Type} (now : Int) (state0 : BackpressureState)
    (events : List α) (caps : Nat → CapacityResponse) (sends : Nat → SendResult)
    (fuel : Nat) : Option (FlushResult α) :=
  let st1 := updatePendingCount state0 events.length
  if (canAttemptFlush now st1).allowed = false then
    some { success := false
           sent := 0
           remaining := events.length
           state := st1
           remList := events
           capCalls := 0
           sendCalls := 0 }
  else
    let capacity := caps 0
    let st2 := { st1 with lastCapacity := some capacity }
    if capacity.ready = false then
      let st3 := { st2 with
        nextAttemptAfter := capacity.retryAfter.map (fun r => now + r * 1000) }
      some { success := false
             sent := 0
             remaining := events.length
             state := st3
             remList := events
             capCalls := 1
             sendCalls := 0 }
    else
      (flushLoop caps sends capacity now fuel events st2 0 1 0).map fun r =>
        let stF := updatePendingCount r.state r.remList.length
        { success := r.remList.isEmpty
          sent := r.totalSent
          remaining := r.remList.length
          state := stF
          remList := r.remList
          capCalls := r.capIdx
          sendCalls := r.sendIdx }

/-- String s contains sub as a substring. -/
def containsSub (s sub : String) : Prop := ∃ a b, s = a ++ sub ++ b

/-- Capacity oracle exhibiting the unguarded zero-batch-size case: the
server says ready with maxBatchSize 0. -/
def spinCaps : Nat → CapacityResponse := fun _ =>
  { ready := true, maxBatchSize := 0, delayBetweenBatches := 0, retryAfter := some 0 }

/-- Send oracle that always succeeds. -/
def spinSends : Nat → SendResult := fun _ => { ok := true, status := 200 }

/-- Capacity oracle advertising ready, batches of 100, and no pacing
delay. -/
def bigBatchCaps : Nat → CapacityResponse := fun _ =>
  { ready := true, maxBatchSize := 100, delayBetweenBatches := 0, retryAfter := some 0 }

/-- Send oracle that always succeeds (companion of bigBatchCaps). -/
def okSends : Nat → SendResult := fun _ => { ok := true, status := 200 }

/-- Capacity oracle advertising ready, batches of 2, and no pacing
delay; used for a concrete drain that fails part way. -/
def w7caps : Nat → CapacityResponse := fun _ =>
  { ready := true, maxBatchSize := 2, delayBetweenBatches := 0, retryAfter := some 0 }

/-- Send oracle whose first call succeeds and whose second call fails
with status 503 and no Retry-After header. -/
def w7sends : Nat → SendResult := fun k =>
  if k = 0 then { ok := true, status := 200 } else { ok := false, status := 503 }

/-- The backpressure state after the concrete drain of five events under
w7caps and w7sends: one successful batch of two, then a 503 failure. -/
def w7state : BackpressureState :=
  { backoffLevel := 1
    nextAttemptAfter := some 4000
    lastCapacity := some (w7caps 0)
    consecutiveFailures := 1
    lastSuccessTime := 0
    pendingEventCount := 3 }

/-- The full result of that concrete drain. -/
def w7res : FlushResult Nat :=
  { success := false
    sent := 2
    remaining := 3
    state := w7state
    remList := [3, 4, 5]
    capCalls := 1
    sendCalls := 2 }

/-- A ready capacity with batches of 100 and a positive pacing delay,
used to exercise the mid-drain re-negotiation point. -/
def w10capacity : CapacityResponse :=
  { ready := true, maxBatchSize := 100, delayBetweenBatches := 1000,
    retryAfter := some 0 }

/-- A state with the circuit breaker tripped and a pending wait. -/
def w1circuit : BackpressureState :=
  { defaultState with consecutiveFailures := 12, nextAttemptAfter := some 100 }

/-- A state below the breaker threshold with a pending backoff wait. -/
def w1backoff : BackpressureState :=
  { defaultState with backoffLevel := 2, nextAttemptAfter := some 5000 }

/-- A state with the circuit breaker count reached but the penalty
window already expired. -/
def w1expired : BackpressureState :=
  { defaultState with consecutiveFailures := 12, nextAttemptAfter := some (-5) }

/-! Theorems. -/

/-- Comparing a js difference against zero agrees with comparing the
operands, also through NaN. -/
theorem jsGt_jsSub_zero (a : Option Int) (b : Int) :
    jsGt (jsSub a b) 0 = jsGt a b := by
  cases a <;> simp [jsGt, jsSub]

/-- Claim C3: recordSuccess decays backoffLevel by exactly one floored
at zero, resets consecutiveFailures, stamps lastSuccessTime with now,
clears nextAttemptAfter, and lowers pendingEventCount by eventsSent
floored at zero; lastCapacity is unchanged. -/
theorem recordSuccess_spec (now : Int) (st : BackpressureState) (eventsSent : Nat) :
    ((recordSuccess now st eventsSent).backoffLevel : Int) =
      max 0 ((st.backoffLevel : Int) - 1)
    ∧ (recordSuccess now st eventsSent).consecutiveFailures = 0
    ∧ (recordSuccess now st eventsSent).lastSuccessTime = now
    ∧ (recordSuccess now st eventsSent).nextAttemptAfter = some 0
    ∧ ((recordSuccess now st eventsSent).pendingEventCount : Int) =
      max 0 ((st.pendingEventCount : Int) - (eventsSent : Int))
    ∧ (recordSuccess now st eventsSent).lastCapacity = st.lastCapacity := by
  refine ⟨?_, rfl, rfl, rfl, ?_, rfl⟩ <;> simp only [recordSuccess] <;> omega

/-- Claim C4: the backoff calculator is min(1000 * 2 ^ level, 300000),
starts at 1000, doubles while the double stays under the cap, and is
pinned to the 300000 cap from level 9 on. -/
theorem calculateBackoffDelay_spec :
    (∀ level : Nat, calculateBackoffDelay level = min (1000 * 2 ^ level) 300000)
    ∧ calculateBackoffDelay 0 = 1000
    ∧ (∀ n : Nat, calculateBackoffDelay n * 2 ≤ 300000 →
        calculateBackoffDelay (n + 1) = calculateBackoffDelay n * 2)
    ∧ (∀ n : Nat, 9 ≤ n → calculateBackoffDelay n = 300000) := by
  refine ⟨fun level => rfl, rfl, ?_, ?_⟩
  · intro n h
    simp only [calculateBackoffDelay, BACKOFF_CONFIG] at h ⊢
    rcases le_or_lt (1000 * 2 ^ n) 300000 with h1 | h1
    · rw [min_eq_left h1] at h
      rw [min_eq_left h1, pow_succ, min_eq_left (by omega)]
      ring
    · rw [min_eq_right (le_of_lt h1)] at h
      omega
  · intro n hn
    have h9 : (2 : Nat) ^ 9 ≤ 2 ^ n := Nat.pow_le_pow_right (by omega) hn
    simp only [calculateBackoffDelay, BACKOFF_CONFIG]
    have : (300000 : Nat) ≤ 1000 * 2 ^ n := by
      calc (300000 : Nat) ≤ 1000 * 2 ^ 9 := by norm_num
        _ ≤ 1000 * 2 ^ n := by omega
    rw [min_eq_right this]

/-- Witness for C4 at concrete levels. -/
theorem calculateBackoffDelay_spec_witness :
    calculateBackoffDelay 3 = calculateBackoffDelay 2 * 2
    ∧ calculateBackoffDelay 12 = 300000 := by
  exact ⟨calculateBackoffDelay_spec.2.2.1 2 (by decide),
    calculateBackoffDelay_spec.2.2.2 12 (by decide)⟩

/-- Claim C2: recordFailure increments consecutiveFailures without a
cap, raises backoffLevel by one capped at 10, leaves the other fields
alone, and sets nextAttemptAfter to now plus a delay that is
parseInt(retryAfterHeader) * 1000 whenever the header is provided (a
truthy, that is non-empty, header wins even over 429/503), else double
the exponential delay of the new level for status 429 or 503, else the
plain exponential delay of the new level. -/
theorem recordFailure_spec (now : Int) (st : BackpressureState) (statusCode : Int)
    (h : Option String) :
    (recordFailure now st statusCode h).consecutiveFailures =
      st.consecutiveFailures + 1
    ∧ (recordFailure now st statusCode h).backoffLevel = min (st.backoffLevel + 1) 10
    ∧ (recordFailure now st statusCode h).lastCapacity = st.lastCapacity
    ∧ (recordFailure now st statusCode h).lastSuccessTime = st.lastSuccessTime
    ∧ (recordFailure now st statusCode h).pendingEventCount = st.pendingEventCount
    ∧ (jsTruthy h = true →
        (recordFailure now st statusCode h).nextAttemptAfter =
          (jsParseInt (h.getD (""))).map (fun v => now + v * 1000))
    ∧ (jsTruthy h = false → (statusCode = 429 ∨ statusCode = 503) →
        (recordFailure now st statusCode h).nextAttemptAfter =
          some (now + (calculateBackoffDelay (min (st.backoffLevel + 1) 10) : Int) * 2))
    ∧ (jsTruthy h = false → ¬ (statusCode = 429 ∨ statusCode = 503) →
        (recordFailure now st statusCode h).nextAttemptAfter =
          some (now + (calculateBackoffDelay (min (st.backoffLevel + 1) 10) : Int))) := by
  refine ⟨rfl, rfl, rfl, rfl, rfl, ?_, ?_, ?_⟩
  · intro ht
    simp [recordFailure, ht, Option.map_map]
    rfl
  · intro ht hsc
    simp [recordFailure, ht, hsc]
  · intro ht hsc
    simp [recordFailure, ht, hsc]

/-- Witness for C2: a provided header of 30 seconds overrides the 429
doubling; without a header 429 doubles the level-1 delay to 4000 while
500 keeps the plain 2000. -/
theorem recordFailure_spec_witness :
    (recordFailure 0 defaultState 429 (some ("30"))).nextAttemptAfter = some 30000
    ∧ (recordFailure 0 defaultState 429 none).nextAttemptAfter = some 4000
    ∧ (recordFailure 0 defaultState 500 none).nextAttemptAfter = some 2000 := by
  refine ⟨?_, ?_, ?_⟩
  · rw [(recordFailure_spec 0 defaultState 429 (some ("30"))).2.2.2.2.2.1 (by decide)]
    decide
  · rw [(recordFailure_spec 0 defaultState 429 none).2.2.2.2.2.2.1 (by decide)
      (by decide)]
    decide
  · rw [(recordFailure_spec 0 defaultState 500 none).2.2.2.2.2.2.2 (by decide)
      (by decide)]
    decide

/-- Appending on the right preserves substring containment. -/
theorem containsSub_append_left (s t sub : String) (h : containsSub s sub) :
    containsSub (s ++ t) sub := by
  obtain ⟨a, b, rfl⟩ := h
  exact ⟨a, b ++ t, by simp [String.append_assoc]⟩

/-- The circuit-breaker message names the circuit breaker. -/
theorem circuitReason_contains_cb (cf : Nat) (w : Int) :
    containsSub (circuitBreakerReason cf w) ("Circuit breaker") := by
  refine ⟨"", (" open: ") ++ toString cf ++ (" consecutive failures. Retry in ") ++
    toString (ceilSecs w) ++ ("s"), ?_⟩
  unfold circuitBreakerReason
  simp only [String.append_assoc, String.empty_append]
  conv_rhs => rw [← String.append_assoc]
  rw [show ("Circuit breaker") ++ (" open: ") = ("Circuit breaker open: ") from by decide]

/-- The circuit-breaker message carries the exact failure count. -/
theorem circuitReason_contains_count (cf : Nat) (w : Int) :
    containsSub (circuitBreakerReason cf w) (toString cf) := by
  refine ⟨("Circuit breaker open: "), (" consecutive failures. Retry in ") ++
    toString (ceilSecs w) ++ ("s"), ?_⟩
  unfold circuitBreakerReason
  simp [String.append_assoc]

/-- The backoff message names backing off. -/
theorem backoffReason_contains_backing (w : Int) (l : Nat) :
    containsSub (backoffReason w l) ("Backing off") := by
  refine ⟨"", (": retry in ") ++ toString (ceilSecs w) ++ ("s (level ") ++
    toString l ++ (")"), ?_⟩
  unfold backoffReason
  simp only [String.append_assoc, String.empty_append]
  conv_rhs => rw [← String.append_assoc]
  rw [show ("Backing off") ++ (": retry in ") = ("Backing off: retry in ") from by decide]

/-- The backoff message carries the current backoff level. -/
theorem backoffReason_contains_level (w : Int) (l : Nat) :
    containsSub (backoffReason w l) (("level ") ++ toString l) := by
  refine ⟨("Backing off: retry in ") ++ toString (ceilSecs w) ++ ("s ("), (")"), ?_⟩
  unfold backoffReason
  simp only [String.append_assoc]
  conv_rhs => rw [← String.append_assoc ("s (") ("level ") (toString l ++ (")"))]
  rw [show ("s (") ++ ("level ") = ("s (level ") from by decide]

/-- A js less-or-equal excludes a js greater-than. -/
theorem jsGt_eq_false_of_jsLe (a : Option Int) (b : Int) (h : jsLe a b = true) :
    jsGt a b = false := by
  cases a with
  | none => rfl
  | some v =>
    simp [jsLe, jsGt] at h ⊢
    omega

/-- Claim C1: the admission gate denies with a circuit-breaker reason
holding the exact failure count when at least 10 consecutive failures
and the wait is still pending, denies with a backoff reason holding the
level when only the wait is pending, and otherwise allows with zero
wait; in particular a state with 10 or more failures whose window has
expired is allowed. -/
theorem canAttemptFlush_spec (now : Int) (st : BackpressureState) :
    (10 ≤ st.consecutiveFailures → jsGt st.nextAttemptAfter now = true →
        (canAttemptFlush now st).allowed = false
        ∧ (canAttemptFlush now st).waitMs = jsSub st.nextAttemptAfter now
        ∧ containsSub (canAttemptFlush now st).reason ("Circuit breaker")
        ∧ containsSub (canAttemptFlush now st).reason (toString st.consecutiveFailures))
    ∧ (st.consecutiveFailures < 10 → jsGt st.nextAttemptAfter now = true →
        (canAttemptFlush now st).allowed = false
        ∧ (canAttemptFlush now st).waitMs = jsSub st.nextAttemptAfter now
        ∧ containsSub (canAttemptFlush now st).reason ("Backing off")
        ∧ containsSub (canAttemptFlush now st).reason
            (("level ") ++ toString st.backoffLevel))
    ∧ (jsGt st.nextAttemptAfter now = false →
        canAttemptFlush now st = { allowed := true, waitMs := some 0, reason := "OK" })
    ∧ (10 ≤ st.consecutiveFailures → jsLe st.nextAttemptAfter now = true →
        (canAttemptFlush now st).allowed = true) := by
  refine ⟨?_, ?_, ?_, ?_⟩
  · intro h10 hgt
    simp only [canAttemptFlush, BACKOFF_CONFIG, jsGt_jsSub_zero, hgt, h10, and_self,
      if_true]
    exact ⟨trivial, trivial, circuitReason_contains_cb _ _, circuitReason_contains_count _ _⟩
  · intro h10 hgt
    have hnot : ¬ (10 ≤ st.consecutiveFailures) := by omega
    simp only [canAttemptFlush, BACKOFF_CONFIG, jsGt_jsSub_zero, hgt, hnot, and_true,
      false_and, if_false, if_true, if_neg hnot]
    exact ⟨trivial, trivial, backoffReason_contains_backing _ _, backoffReason_contains_level _ _⟩
  · intro hgt
    simp [canAttemptFlush, jsGt_jsSub_zero, hgt]
  · intro _ hle
    have hgt := jsGt_eq_false_of_jsLe _ _ hle
    simp [canAttemptFlush, jsGt_jsSub_zero, hgt]

/-- Witness for C1 at concrete states: a tripped breaker with a pending
wait is denied with the breaker message and its count, a pending
backoff is denied with the level, the fresh state is allowed, and a
tripped breaker with an expired window is allowed. -/
theorem canAttemptFlush_spec_witness :
    (canAttemptFlush 0 w1circuit).allowed = false
    ∧ (canAttemptFlush 0 w1circuit).waitMs = jsSub w1circuit.nextAttemptAfter 0
    ∧ containsSub (canAttemptFlush 0 w1circuit).reason ("Circuit breaker")
    ∧ containsSub (canAttemptFlush 0 w1circuit).reason
        (toString w1circuit.consecutiveFailures)
    ∧ (canAttemptFlush 0 w1backoff).allowed = false
    ∧ containsSub (canAttemptFlush 0 w1backoff).reason
        (("level ") ++ toString w1backoff.backoffLevel)
    ∧ canAttemptFlush 0 defaultState = { allowed := true, waitMs := some 0, reason := "OK" }
    ∧ (canAttemptFlush 0 w1expired).allowed = true := by
  have h1 := (canAttemptFlush_spec 0 w1circuit).1 (by decide) (by decide)
  have h2 := (canAttemptFlush_spec 0 w1backoff).2.1 (by decide) (by decide)
  have h3 := (canAttemptFlush_spec 0 defaultState).2.2.1 (by decide)
  have h4 := (canAttemptFlush_spec 0 w1expired).2.2.2 (by decide) (by decide)
  exact ⟨h1.1, h1.2.1, h1.2.2.1, h1.2.2.2, h2.1, h2.2.2.2, h3, h4⟩

/-- Counterexample for C5: on a 429 with a present but non-numeric
Retry-After header the negotiator does not default retryAfter to 60; it
returns NaN (none), because the source only falls back to the literal
default string when the header is absent or empty. -/
theorem getServerCapacity_unparseable_cex :
    (getServerCapacity (.response 429 (some ("abc")) none)).retryAfter = none
    ∧ (getServerCapacity (.response 429 (some ("abc")) none)).retryAfter ≠ some 60 := by
  decide

/-- Claim C5 as amended: the negotiator is total over request outcomes.
A thrown fetch yields DEFAULT_CAPACITY; 429 yields the rate-limited
descriptor whose retryAfter is 60 when the header is absent or empty
and parseInt of the header otherwise (so NaN on a non-numeric header);
503 is analogous with 120 and the overloaded message; any other
non-2xx status yields DEFAULT_CAPACITY; a 2xx response returns its
parsed body, or DEFAULT_CAPACITY when the body was malformed. -/
theorem getServerCapacity_spec :
    getServerCapacity .fetchFailed = DEFAULT_CAPACITY
    ∧ (∀ body, getServerCapacity (.response 429 none body) =
        { ready := false, maxBatchSize := 0, delayBetweenBatches := 0,
          retryAfter := some 60, message := some ("Rate limited") })
    ∧ (∀ body, getServerCapacity (.response 429 (some ("")) body) =
        { ready := false, maxBatchSize := 0, delayBetweenBatches := 0,
          retryAfter := some 60, message := some ("Rate limited") })
    ∧ (∀ (s : String) body, s ≠ "" →
        getServerCapacity (.response 429 (some s) body) =
        { ready := false, maxBatchSize := 0, delayBetweenBatches := 0,
          retryAfter := jsParseInt s, message := some ("Rate limited") })
    ∧ (∀ body, getServerCapacity (.response 503 none body) =
        { ready := false, maxBatchSize := 0, delayBetweenBatches := 0,
          retryAfter := some 120, message := some ("Server overloaded") })
    ∧ (∀ (s : String) body, s ≠ "" →
        getServerCapacity (.response 503 (some s) body) =
        { ready := false, maxBatchSize := 0, delayBetweenBatches := 0,
          retryAfter := jsParseInt s, message := some ("Server overloaded") })
    ∧ (∀ (status : Int) (h : Option String) body, status ≠ 429 → status ≠ 503 →
        ¬ (200 ≤ status ∧ status ≤ 299) →
        getServerCapacity (.response status h body) = DEFAULT_CAPACITY)
    ∧ (∀ (status : Int) (h : Option String) (d : CapacityResponse),
        200 ≤ status → status ≤ 299 →
        getServerCapacity (.response status h (some d)) = d)
    ∧ (∀ (status : Int) (h : Option String), 200 ≤ status → status ≤ 299 →
        getServerCapacity (.response status h none) = DEFAULT_CAPACITY) := by
  refine ⟨rfl, ?_, ?_, ?_, ?_, ?_, ?_, ?_, ?_⟩
  · intro body
    simp [getServerCapacity, headerOrDefault]
    decide
  · intro body
    simp [getServerCapacity, headerOrDefault]
    decide
  · intro s body hs
    simp [getServerCapacity, headerOrDefault, hs]
  · intro body
    simp [getServerCapacity, headerOrDefault]
    decide
  · intro s body hs
    simp [getServerCapacity, headerOrDefault, hs]
  · intro status h body h429 h503 hok
    simp [getServerCapacity, h429, h503, hok]
  · intro status h d h1 h2
    have h429 : status ≠ 429 := by omega
    have h503 : status ≠ 503 := by omega
    simp [getServerCapacity, h429, h503, h1, h2]
  · intro status h h1 h2
    have h429 : status ≠ 429 := by omega
    have h503 : status ≠ 503 := by omega
    simp [getServerCapacity, h429, h503, h1, h2]

/-- Witness for C5 (amended): a numeric header is parsed, a 500
degrades to the default, and a clean 2xx body is returned verbatim. -/
theorem getServerCapacity_spec_witness :
    getServerCapacity (.response 429 (some ("30")) none) =
      { ready := false, maxBatchSize := 0, delayBetweenBatches := 0,
        retryAfter := some 30, message := some ("Rate limited") }
    ∧ getServerCapacity (.response 500 none none) = DEFAULT_CAPACITY
    ∧ getServerCapacity (.response 200 none (some DEFAULT_CAPACITY)) =
        DEFAULT_CAPACITY := by
  refine ⟨?_, ?_, ?_⟩
  · rw [getServerCapacity_spec.2.2.2.1 ("30") none (by decide)]
    decide
  · exact getServerCapacity_spec.2.2.2.2.2.2.1 500 none none (by decide) (by decide)
      (by decide)
  · exact getServerCapacity_spec.2.2.2.2.2.2.2.1 200 none DEFAULT_CAPACITY (by decide)
      (by decide)

/-- The loop of the drain never raises backoffLevel above 10: every
iteration either lowers it (success) or caps it at 10 (failure). -/
theorem flushLoop_backoffLevel {α : Type} (caps : Nat → CapacityResponse)
    (sends : Nat → SendResult) (capacity : CapacityResponse) (now : Int) :
    ∀ (fuel : Nat) (rem : List α) (st : BackpressureState) (sent ci si : Nat)
      (r : LoopResult α),
      st.backoffLevel ≤ 10 →
      flushLoop caps sends capacity now fuel rem st sent ci si = some r →
      r.state.backoffLevel ≤ 10 := by
  intro fuel
  induction fuel with
  | zero =>
    intro rem st sent ci si r hst h
    simp only [flushLoop] at h
    split at h
    · cases h; exact hst
    · exact absurd h (by simp)
  | succ fuel ih =>
    intro rem st sent ci si r hst h
    simp only [flushLoop] at h
    split at h
    · cases h; exact hst
    · split at h
      · split at h
        · split at h
          · split at h
            · exact ih _ _ _ _ _ _ (by simp [recordSuccess]; omega) h
            · cases h
              simp [recordSuccess]
              omega
          · exact ih _ _ _ _ _ _ (by simp [recordSuccess]; omega) h
        · exact ih _ _ _ _ _ _ (by simp [recordSuccess]; omega) h
      · cases h
        simp [recordFailure]

/-- Claim C8: backoffLevel always stays within 0 and 10: the default
state starts there, and recordSuccess, recordFailure,
updatePendingCount and every completed flushWithBackpressure preserve
it, however many failures occur. -/
theorem backoffLevel_invariant :
    (0 ≤ (defaultState.backoffLevel : Int) ∧ defaultState.backoffLevel ≤ 10)
    ∧ (∀ (now : Int) (st : BackpressureState) (n : Nat), st.backoffLevel ≤ 10 →
        0 ≤ ((recordSuccess now st n).backoffLevel : Int)
        ∧ (recordSuccess now st n).backoffLevel ≤ 10)
    ∧ (∀ (now : Int) (st : BackpressureState) (c : Int) (h : Option String),
        0 ≤ ((recordFailure now st c h).backoffLevel : Int)
        ∧ (recordFailure now st c h).backoffLevel ≤ 10)
    ∧ (∀ (st : BackpressureState) (n : Nat), st.backoffLevel ≤ 10 →
        0 ≤ ((updatePendingCount st n).backoffLevel : Int)
        ∧ (updatePendingCount st n).backoffLevel ≤ 10)
    ∧ (∀ (α : Type) (now : Int) (st0 : BackpressureState) (events : List α)
        (caps : Nat → CapacityResponse) (sends : Nat → SendResult) (fuel : Nat)
        (res : FlushResult α), st0.backoffLevel ≤ 10 →
        flushWithBackpressure now st0 events caps sends fuel = some res →
        0 ≤ ((res.state.backoffLevel : Int)) ∧ res.state.backoffLevel ≤ 10) := by
  refine ⟨⟨by omega, by decide⟩, ?_, ?_, ?_, ?_⟩
  · intro now st n hst
    refine ⟨by omega, ?_⟩
    simp [recordSuccess]
    omega
  · intro now st c h
    refine ⟨by omega, ?_⟩
    simp [recordFailure]
  · intro st n hst
    exact ⟨by omega, hst⟩
  · intro α now st0 events caps sends fuel res hst h
    refine ⟨by omega, ?_⟩
    simp only [flushWithBackpressure] at h
    split at h
    · cases h; exact hst
    · split at h
      · cases h; exact hst
      · rw [Option.map_eq_some'] at h
        obtain ⟨r, hr, hres⟩ := h
        have hb := flushLoop_backoffLevel caps sends (caps 0) now fuel events _ 0 1 0 r
          (by simpa [updatePendingCount] using hst) hr
        rw [← hres]
        simpa [updatePendingCount] using hb

/-- Witness for C8 at concrete states and a concrete drain. -/
theorem backoffLevel_invariant_witness :
    ((recordSuccess 0 w1backoff 1).backoffLevel ≤ 10)
    ∧ ((recordFailure 0 w1backoff 500 none).backoffLevel ≤ 10)
    ∧ ((updatePendingCount w1backoff 7).backoffLevel ≤ 10)
    ∧ (w7res.state.backoffLevel ≤ 10) := by
  exact ⟨(backoffLevel_invariant.2.1 0 w1backoff 1 (by decide)).2,
    (backoffLevel_invariant.2.2.1 0 w1backoff 500 none).2,
    (backoffLevel_invariant.2.2.2.1 w1backoff 7 (by decide)).2,
    (backoffLevel_invariant.2.2.2.2 Nat 0 defaultState [1, 2, 3, 4, 5] w7caps w7sends 5
      w7res (by decide) (by decide)).2⟩

/-- Every completed run of the drain loop consumed a front segment of
the remaining list: some k events were sent, k at most the list length,
the sent total grew by exactly k, and the leftover list is the drop of
k from the front (FIFO, no skips, no reordering). -/
theorem flushLoop_inv {α : Type} (caps : Nat → CapacityResponse)
    (sends : Nat → SendResult) (capacity : CapacityResponse) (now : Int) :
    ∀ (fuel : Nat) (rem : List α) (st : BackpressureState) (sent ci si : Nat)
      (r : LoopResult α),
      flushLoop caps sends capacity now fuel rem st sent ci si = some r →
      ∃ k, k ≤ rem.length ∧ r.totalSent = sent + k ∧ r.remList = rem.drop k := by
  intro fuel
  induction fuel with
  | zero =>
    intro rem st sent ci si r h
    simp only [flushLoop] at h
    split at h
    · cases h
      exact ⟨0, Nat.zero_le _, (Nat.add_zero sent).symm, (List.drop_zero rem).symm⟩
    · exact absurd h (by simp)
  | succ fuel ih =>
    intro rem st sent ci si r h
    simp only [flushLoop] at h
    split at h
    · cases h
      exact ⟨0, Nat.zero_le _, (Nat.add_zero sent).symm, (List.drop_zero rem).symm⟩
    · split at h
      · split at h
        · split at h
          · split at h
            · obtain ⟨k, hk, ht, hr⟩ := ih _ _ _ _ _ _ h
              refine ⟨min capacity.maxBatchSize rem.length + k, ?_, ?_, ?_⟩
              · have hb := min_le_right capacity.maxBatchSize rem.length
                simp [List.length_drop] at hk
                omega
              · simp [List.length_take] at ht
                omega
              · rw [hr, List.drop_drop]
            · cases h
              refine ⟨min capacity.maxBatchSize rem.length,
                min_le_right _ _, ?_, rfl⟩
              simp [List.length_take]
          · obtain ⟨k, hk, ht, hr⟩ := ih _ _ _ _ _ _ h
            refine ⟨min capacity.maxBatchSize rem.length + k, ?_, ?_, ?_⟩
            · have hb := min_le_right capacity.maxBatchSize rem.length
              simp [List.length_drop] at hk
              omega
            · simp [List.length_take] at ht
              omega
            · rw [hr, List.drop_drop]
        · obtain ⟨k, hk, ht, hr⟩ := ih _ _ _ _ _ _ h
          refine ⟨min capacity.maxBatchSize rem.length + k, ?_, ?_, ?_⟩
          · have hb := min_le_right capacity.maxBatchSize rem.length
            simp [List.length_drop] at hk
            omega
          · simp [List.length_take] at ht
            omega
          · rw [hr, List.drop_drop]
      · cases h
        exact ⟨0, Nat.zero_le _, (Nat.add_zero sent).symm, (List.drop_zero rem).symm⟩

/-- A failed sendBatch halts the loop at once: if the k-th send result
is a failure and the loop starts at send index at most k, the completed
loop made at most k + 1 sendBatch calls. -/
theorem flushLoop_sendIdx {α : Type} (caps : Nat → CapacityResponse)
    (sends : Nat → SendResult) (capacity : CapacityResponse) (now : Int) :
    ∀ (fuel : Nat) (rem : List α) (st : BackpressureState) (sent ci si : Nat)
      (r : LoopResult α) (k : Nat),
      flushLoop caps sends capacity now fuel rem st sent ci si = some r →
      si ≤ k → (sends k).ok = false → r.sendIdx ≤ k + 1 := by
  intro fuel
  induction fuel with
  | zero =>
    intro rem st sent ci si r k h hsik hk
    simp only [flushLoop] at h
    split at h
    · cases h
      exact show si ≤ k + 1 by omega
    · exact absurd h (by simp)
  | succ fuel ih =>
    intro rem st sent ci si r k h hsik hk
    simp only [flushLoop] at h
    split at h
    · cases h
      exact show si ≤ k + 1 by omega
    · split at h
      · rename_i hok
        have hne : si ≠ k := by
          intro e
        -- the si-th send succeeded while the k-th failed
          rw [e, hk] at hok
          exact Bool.false_ne_true hok
        have hlt : si + 1 ≤ k := by omega
        split at h
        · split at h
          · split at h
            · exact ih _ _ _ _ _ _ _ h hlt hk
            · cases h
              exact show si + 1 ≤ k + 1 by omega
          · exact ih _ _ _ _ _ _ _ h hlt hk
        · exact ih _ _ _ _ _ _ _ h hlt hk
      · cases h
        exact show si + 1 ≤ k + 1 by omega

/-- Claim C6: a denied gate returns failure with nothing sent, the full
list remaining and no capacity or sendBatch call made; an allowed gate
with a not-ready capacity descriptor sets nextAttemptAfter to now plus
retryAfter seconds, stores the descriptor, and returns failure with
nothing sent and no sendBatch call made. -/
theorem flushWithBackpressure_gate_spec {α : Type} (now : Int)
    (st0 : BackpressureState) (events : List α) (caps : Nat → CapacityResponse)
    (sends : Nat → SendResult) (fuel : Nat) :
    ((canAttemptFlush now (updatePendingCount st0 events.length)).allowed = false →
      flushWithBackpressure now st0 events caps sends fuel =
        some { success := false, sent := 0, remaining := events.length,
               state := updatePendingCount st0 events.length, remList := events,
               capCalls := 0, sendCalls := 0 })
    ∧ ((canAttemptFlush now (updatePendingCount st0 events.length)).allowed = true →
       (caps 0).ready = false →
      flushWithBackpressure now st0 events caps sends fuel =
        some { success := false, sent := 0, remaining := events.length,
               state := { updatePendingCount st0 events.length with
                          lastCapacity := some (caps 0),
                          nextAttemptAfter :=
                            (caps 0).retryAfter.map (fun r => now + r * 1000) },
               remList := events, capCalls := 1, sendCalls := 0 }) := by
  constructor
  · intro hgate
    simp [flushWithBackpressure, hgate]
  · intro hgate hready
    simp [flushWithBackpressure, hgate, hready]

/-- Witness for C6: a pending wait blocks the drain with no calls; a
not-ready default capacity sets the retry time thirty seconds out. -/
theorem flushWithBackpressure_gate_spec_witness :
    flushWithBackpressure 0 w1backoff [1, 2, 3] (fun _ => DEFAULT_CAPACITY)
        w7sends 4 =
      some { success := false, sent := 0, remaining := 3,
             state := updatePendingCount w1backoff 3, remList := [1, 2, 3],
             capCalls := 0, sendCalls := 0 }
    ∧ flushWithBackpressure 0 defaultState [1, 2, 3] (fun _ => DEFAULT_CAPACITY)
        w7sends 4 =
      some { success := false, sent := 0, remaining := 3,
             state := { updatePendingCount defaultState 3 with
                        lastCapacity := some DEFAULT_CAPACITY,
                        nextAttemptAfter := some 30000 },
             remList := [1, 2, 3], capCalls := 1, sendCalls := 0 } := by
  constructor
  · exact (flushWithBackpressure_gate_spec 0 w1backoff [1, 2, 3]
      (fun _ => DEFAULT_CAPACITY) w7sends 4).1 (by decide)
  · have h := (flushWithBackpressure_gate_spec 0 defaultState [1, 2, 3]
      (fun _ => DEFAULT_CAPACITY) w7sends 4).2 (by decide) (by decide)
    rw [h]
    decide

/-- Claim C7: when the gate allows and the capacity is ready, a
completed drain consumed a front segment in FIFO order: the leftover
list is the drop of the sent count, sent plus remaining equals the
input length, success holds exactly when nothing remains, and a failed
k-th sendBatch means no call beyond the k-th was made. -/
theorem flushWithBackpressure_fifo_spec {α : Type} (now : Int)
    (st0 : BackpressureState) (events : List α) (caps : Nat → CapacityResponse)
    (sends : Nat → SendResult) (fuel : Nat) (res : FlushResult α)
    (hgate : (canAttemptFlush now (updatePendingCount st0 events.length)).allowed = true)
    (hready : (caps 0).ready = true)
    (hrun : flushWithBackpressure now st0 events caps sends fuel = some res) :
    res.remList = events.drop res.sent
    ∧ res.sent + res.remaining = events.length
    ∧ (res.success = true ↔ res.remaining = 0)
    ∧ (∀ k, (sends k).ok = false → res.sendCalls ≤ k + 1) := by
  simp only [flushWithBackpressure, hgate, hready] at hrun
  rw [if_neg (by simp), if_neg (by simp)] at hrun
  rw [Option.map_eq_some'] at hrun
  obtain ⟨r, hr, hres⟩ := hrun
  obtain ⟨k, hk, ht, hrem⟩ := flushLoop_inv caps sends (caps 0) now fuel events _ 0 1 0
    r hr
  have hsend := fun j hj => flushLoop_sendIdx caps sends (caps 0) now fuel events _ 0 1
    0 r j hr (Nat.zero_le j) hj
  subst hres
  refine ⟨?_, ?_, ?_, ?_⟩
  · simp only [ht, Nat.zero_add] at hrem ⊢
    exact hrem
  · simp only [hrem, ht, List.length_drop]
    omega
  · simp [List.isEmpty_iff, List.length_eq_zero]
  · intro j hj
    simpa using hsend j hj

/-- With a ready capacity of maxBatchSize 0, no pacing delay, a
non-empty list and a sendBatch that accepts the empty batch, the loop
makes no progress: it consumes any amount of fuel without completing. -/
theorem flushLoop_spin :
    ∀ (fuel : Nat) (st : BackpressureState) (sent ci si : Nat),
      flushLoop (α := Nat) spinCaps spinSends (spinCaps 0) 0 fuel [0] st sent ci si =
        none := by
  intro fuel
  induction fuel with
  | zero =>
    intro st sent ci si
    simp [flushLoop]
  | succ fuel ih =>
    intro st sent ci si
    simp only [flushLoop]
    simp [spinCaps, spinSends]
    exact ih _ _ _ _

/-- Claim C9 fails on the code: when the server advertises ready with
maxBatchSize 0 and the event list is non-empty, flushWithBackpressure
does not treat the situation as not-ready; the send loop repeats with
an empty batch and never terminates (here: it returns none, still
running, for every amount of fuel). -/
theorem flushWithBackpressure_zero_batch_spin :
    ∀ fuel : Nat,
      flushWithBackpressure 0 defaultState [0] spinCaps spinSends fuel = none := by
  intro fuel
  simp only [flushWithBackpressure]
  rw [if_neg (by decide), if_neg (by decide)]
  rw [flushLoop_spin fuel _ 0 1 0]
  rfl

/-- Counterexample for C10: a drain that sends 101 events in two
batches with delayBetweenBatches 0 crosses the 100-events-sent mark
with events still remaining, yet performs no mid-drain re-negotiation:
the only capacity call is the initial one (capCalls = 1), because the
re-check is nested under the delayBetweenBatches > 0 branch. -/
theorem flushWithBackpressure_renegotiation_cex :
    (flushWithBackpressure 0 defaultState (List.replicate 101 (0 : Nat)) bigBatchCaps
        okSends 2).map (fun r => (r.sent, r.capCalls)) = some (101, 1) := by
  set_option maxRecDepth 8000 in decide

/-- Claim C10 as amended: after a successful batch, the drain
re-negotiates capacity exactly when events remain, the advertised
delayBetweenBatches is positive, and the cumulative sent total is a
multiple of 100; a not-ready fresh descriptor then stops the loop with
the remainder preserved, a ready one lets it continue.  When the delay
is not positive or the total is not a multiple of 100 the loop
continues without consulting the capacity oracle. -/
theorem flushLoop_renegotiate_spec {α : Type} (caps : Nat → CapacityResponse)
    (sends : Nat → SendResult) (capacity : CapacityResponse) (now : Int)
    (fuel : Nat) (rem : List α) (st : BackpressureState) (sent ci si : Nat)
    (hne : rem.isEmpty = false) (hok : (sends si).ok = true) :
    ((rem.drop (min capacity.maxBatchSize rem.length)).isEmpty = false →
     0 < capacity.delayBetweenBatches →
     (sent + min capacity.maxBatchSize rem.length) % 100 = 0 →
      ((caps ci).ready = false →
        flushLoop caps sends capacity now (fuel + 1) rem st sent ci si =
          some ⟨rem.drop (min capacity.maxBatchSize rem.length),
            { recordSuccess now st (min capacity.maxBatchSize rem.length) with
              lastCapacity := some (caps ci) },
            sent + min capacity.maxBatchSize rem.length, ci + 1, si + 1⟩)
      ∧ ((caps ci).ready = true →
        flushLoop caps sends capacity now (fuel + 1) rem st sent ci si =
          flushLoop caps sends capacity now fuel
            (rem.drop (min capacity.maxBatchSize rem.length))
            { recordSuccess now st (min capacity.maxBatchSize rem.length) with
              lastCapacity := some (caps ci) }
            (sent + min capacity.maxBatchSize rem.length) (ci + 1) (si + 1)))
    ∧ ((capacity.delayBetweenBatches ≤ 0 ∨
        (sent + min capacity.maxBatchSize rem.length) % 100 ≠ 0) →
        flushLoop caps sends capacity now (fuel + 1) rem st sent ci si =
          flushLoop caps sends capacity now fuel
            (rem.drop (min capacity.maxBatchSize rem.length))
            (recordSuccess now st (min capacity.maxBatchSize rem.length))
            (sent + min capacity.maxBatchSize rem.length) ci (si + 1)) := by
  have hlen : (rem.take (min capacity.maxBatchSize rem.length)).length =
      min capacity.maxBatchSize rem.length := by
    rw [List.length_take, min_eq_left (min_le_right _ _)]
  constructor
  · intro h1 h2 h3
    constructor
    · intro hready
      simp [flushLoop, hne, hok, hlen, h1, h2, h3, hready]
    · intro hready
      simp [flushLoop, hne, hok, hlen, h1, h2, h3, hready]
  · intro hd
    rcases hd with hd | hd
    · have hnd : ¬ (0 < capacity.delayBetweenBatches) := by omega
      simp [flushLoop, hne, hok, hlen, hnd]
    · by_cases hc : ((rem.drop (min capacity.maxBatchSize rem.length)).isEmpty = false
        ∧ 0 < capacity.delayBetweenBatches)
      · simp [flushLoop, hne, hok, hlen, hc.1, hc.2, hd]
      · simp only [not_and, Bool.not_eq_false] at hc
        by_cases he : (rem.drop (min capacity.maxBatchSize rem.length)).isEmpty = true
        · simp [flushLoop, hne, hok, hlen, he]
        · have h2 := hc (by simpa using he)
          have hnd : ¬ (0 < capacity.delayBetweenBatches) := by omega
          simp [flushLoop, hne, hok, hlen, hnd]

/-- Witness for C7: five events, batches of two, second sendBatch fails
with 503; the drain stops after the failure with three events left in
their original order. -/
theorem flushWithBackpressure_fifo_spec_witness :
    w7res.remList = ([1, 2, 3, 4, 5] : List Nat).drop w7res.sent
    ∧ w7res.sent + w7res.remaining = 5
    ∧ (w7res.success = true ↔ w7res.remaining = 0)
    ∧ w7res.sendCalls ≤ 2 := by
  have h := flushWithBackpressure_fifo_spec 0 defaultState [1, 2, 3, 4, 5] w7caps
    w7sends 5 w7res (by decide) (by decide) (by decide)
  exact ⟨h.1, h.2.1, h.2.2.1, h.2.2.2 1 (by decide)⟩

/-- Witness for C10 (amended): 101 events, batches of 100, positive
pacing delay, a not-ready fresh descriptor: the loop consults the
capacity oracle after 100 events and stops with one event preserved. -/
theorem flushLoop_renegotiate_spec_witness :
    flushLoop (fun _ => DEFAULT_CAPACITY) okSends w10capacity 0 1
        (List.replicate 101 (0 : Nat)) defaultState 0 0 0 =
      some ⟨(List.replicate 101 (0 : Nat)).drop
          (min w10capacity.maxBatchSize (List.replicate 101 (0 : Nat)).length),
        { recordSuccess 0 defaultState
            (min w10capacity.maxBatchSize (List.replicate 101 (0 : Nat)).length) with
          lastCapacity := some DEFAULT_CAPACITY },
        0 + min w10capacity.maxBatchSize (List.replicate 101 (0 : Nat)).length,
        0 + 1, 0 + 1⟩ := by
  exact ((flushLoop_renegotiate_spec (fun _ => DEFAULT_CAPACITY) okSends w10capacity 0
    0 (List.replicate 101 (0 : Nat)) defaultState 0 0 0
    (by set_option maxRecDepth 8000 in decide)
    (by decide)).1
    (by set_option maxRecDepth 8000 in decide)
    (by decide)
    (by set_option maxRecDepth 8000 in decide)).1 (by decide)

end Rulecatch
